import Mathlib

/-!
# Calculator component: state machine of `src/components/Calculator.jsx`

A shallow embedding of the three `useState` cells of the `Calculator` component
(`displayValue`, `inputValue`, `hasError`), of `evaluateExpression`, of
`handleButtonClick` and of the expression bound to the text input's `value`.

The JavaScript engine itself (`new Function(body)()` and `toString` on the value it
returns) is not part of the repository; it is a parameter (`Host`) of every definition
that reaches it, and the theorems quantify over all hosts.
-/

namespace Calculator

/-! ## The host JavaScript engine -/

/-- The two services of the JavaScript engine that the component calls, over a type
`V` of JavaScript values. -/
structure Host (V : Type) where
  /-- The expression `new Function(body)()` of line 30: compile `body` as a function
  body and call the function. `none` when compiling or calling throws. -/
  callFunction : String → Option V
  /-- The call `result.toString()` of lines 56 and 57. `none` when it throws. -/
  toString : V → Option String

/-- A host described by a finite table: a function body listed in the table returns a
value whose `toString` text is the paired string, every other body throws. -/
def tableHost (table : List (String × String)) : Host String where
  callFunction := fun body => table.lookup body
  toString := fun v => some v

/-! ## Line 29: the sanitizing `replace` -/

/-- An item of a regular-expression character class: a literal character or the
escape `\d`. -/
inductive ClassItem where
  | lit (c : Char)
  | digit
  deriving Repr, DecidableEq

/-- Whether a class item accepts a character; `\d` (no `u`/`i` flag) is `[0-9]`. -/
def ClassItem.accepts : ClassItem → Char → Bool
  | .lit c, x => x == c
  | .digit, x => decide ('0'.toNat ≤ x.toNat) && decide (x.toNat ≤ '9'.toNat)

/-- The items of the class `[^-()\d/*+.]` of line 29, in source order (the leading
`^` negates the class, the `-` right after it is a literal). -/
def sanitizeClass : List ClassItem :=
  [.lit '-', .lit '(', .lit ')', .digit, .lit '/', .lit '*', .lit '+', .lit '.']

/-- Whether the negated class `[^ items]` matches a character. -/
def negatedClassMatches (items : List ClassItem) (x : Char) : Bool :=
  !(items.any (fun i => i.accepts x))

/-- The call `str.replace(/[^…]/g, "")` for a one-character pattern `p` with the global
flag and the empty replacement: every matching character is deleted. A character
outside the Basic Multilingual Plane is two UTF-16 code units in JavaScript; the
patterns used here match both, so deleting the character as a whole is the same. -/
def replaceAllWithEmpty (p : Char → Bool) (str : String) : String :=
  ⟨str.data.filter (fun x => !(p x))⟩

/-- Line 29: `expression.replace(/[^-()\d/*+.]/g, "")`. -/
def sanitize (expression : String) : String :=
  replaceAllWithEmpty (negatedClassMatches sanitizeClass) expression

/-- The seventeen characters named by the specification: the decimal digits and
`+ - * / ( ) .`. -/
def allowedChars : List Char :=
  ['0', '1', '2', '3', '4', '5', '6', '7', '8', '9', '+', '-', '*', '/', '(', ')', '.']

/-- Sanitizing as the specification words it: delete every character that is not one
of the seventeen allowed ones, keep the others in place. -/
def specSanitize (expression : String) : String :=
  ⟨expression.data.filter (fun x => decide (x ∈ allowedChars))⟩

/-! ## Lines 27–35: `evaluateExpression` -/

/-- The template literal of line 30 handed to `new Function`. -/
def functionBody (sanitizedExpression : String) : String :=
  "return (" ++ sanitizedExpression ++ ")"

/-- Lines 27–35. Returns the value the engine computes, or throws
`Error("Invalid expression")` when the engine throws. -/
def evaluateExpression {V : Type} (h : Host V) (expression : String) : Except String V :=
  let sanitizedExpression := sanitize expression
  match h.callFunction (functionBody sanitizedExpression) with
  | some result => .ok result
  | none => .error "Invalid expression"

/-! ## Lines 15–17 and 47–67: the state and `handleButtonClick` -/

/-- The three state cells of lines 15–17. -/
structure State where
  displayValue : String
  inputValue : String
  hasError : Bool
  deriving Repr, DecidableEq

/-- The initial values of lines 15–17. -/
def initialState : State :=
  { displayValue := "0", inputValue := "", hasError := false }

/-- JavaScript truthiness of a string: every string but the empty one. -/
def truthy (str : String) : Bool :=
  decide (str ≠ "")

/-- What one execution of the `try` block of lines 48–62 does: the arguments with
which `evaluateExpression` was called, in call order, and either the state produced by
the setters or the exception thrown. -/
structure Attempt where
  evaluated : List String
  outcome : Except String State

/-- Lines 48–62, the `try` block of `handleButtonClick`. An exception can only be
thrown on lines 55–56, before any setter has run. -/
def tryBlock {V : Type} (h : Host V) (s : State) (buttonValue : String) : Attempt :=
  if buttonValue = "C" then
    { evaluated := [],
      outcome := .ok { displayValue := "0", inputValue := "", hasError := false } }
  else if buttonValue = "=" then
    if truthy s.inputValue then
      { evaluated := [s.inputValue],
        outcome :=
          match evaluateExpression h s.inputValue with
          | .error e => .error e
          | .ok result =>
            match h.toString result with
            | none => .error "TypeError"
            | some text => .ok { s with displayValue := text, inputValue := text } }
    else
      { evaluated := [], outcome := .ok s }
  else
    { evaluated := [],
      outcome := .ok { s with hasError := if s.hasError then false else s.hasError,
                              inputValue := s.inputValue ++ buttonValue } }

/-- Lines 47–67: the `try` block, and the `catch` block of lines 63–66 when it
throws. -/
def handleButtonClick {V : Type} (h : Host V) (s : State) (buttonValue : String) : State :=
  match (tryBlock h s buttonValue).outcome with
  | .ok s' => s'
  | .error _ => { s with hasError := true, inputValue := "" }

/-- A sequence of button presses, handled one after the other. -/
def pressAll {V : Type} (h : Host V) (s : State) (buttonValues : List String) : State :=
  buttonValues.foldl (handleButtonClick h) s

/-! ## Line 75: the displayed text -/

/-- The JavaScript operator `a || b` on strings. -/
def jsOr (a b : String) : String :=
  if truthy a then a else b

/-- Line 75: `hasError ? "Error" : inputValue || displayValue`. -/
def displayText (s : State) : String :=
  if s.hasError then "Error" else jsOr s.inputValue s.displayValue

/-! ## The keypad of lines 81–98 -/

/-- The button labels of lines 81–98, in source order. -/
def buttons : List String :=
  ["7", "8", "9", "/", "4", "5", "6", "*", "1", "2", "3", "-", "C", "0", "=", "+"]

/-- The digit buttons. -/
def digitTokens : List String :=
  ["0", "1", "2", "3", "4", "5", "6", "7", "8", "9"]

/-- The operator buttons. -/
def operatorTokens : List String :=
  ["+", "-", "*", "/"]

/-! ## Concrete JavaScript values -/

/-- The JavaScript values that the concrete hosts below return, each with the data
that fixes its `toString` text: a Number (given by its `Number.prototype.toString`
text), a String, or a RegExp without flags (given by its source). -/
inductive JSValue where
  | number (text : String)
  | string (text : String)
  | regExp (source : String)
  deriving Repr, DecidableEq

/-- Whether `typeof` of the value is `"number"`. -/
def JSValue.isNumber : JSValue → Bool
  | .number _ => true
  | .string _ => false
  | .regExp _ => false

/-- The `toString()` text of the value; a RegExp prints as `/source/`. -/
def JSValue.text : JSValue → String
  | .number text => text
  | .string text => text
  | .regExp source => "/" ++ source ++ "/"

/-- A host described by a finite table from function bodies to the value they return;
every other body throws, and `toString` never does. -/
def valueHost (table : List (String × JSValue)) : Host JSValue where
  callFunction := fun body => table.lookup body
  toString := fun v => some v.text

/-! ## The most recent evaluation attempt of a press sequence -/

/-- Whether an execution of the `try` block threw. -/
def Attempt.threw (a : Attempt) : Bool :=
  match a.outcome with
  | .ok _ => false
  | .error _ => true

/-- One press, carried out on a state paired with the record of the most recent
evaluation attempt (whether it threw, and the presses made after it; `none` while no
attempt has been made). A press is an evaluation attempt when its `try` block calls
`evaluateExpression`. -/
def trackStep {V : Type} (h : Host V) (p : State × Option (Bool × List String))
    (buttonValue : String) : State × Option (Bool × List String) :=
  (handleButtonClick h p.1 buttonValue,
    if (tryBlock h p.1 buttonValue).evaluated.isEmpty then
      p.2.map (fun r => (r.1, r.2 ++ [buttonValue]))
    else
      some ((tryBlock h p.1 buttonValue).threw, []))

/-- A press sequence from the initial state, with the record of its most recent
evaluation attempt. -/
def track {V : Type} (h : Host V) (buttonValues : List String) :
    State × Option (Bool × List String) :=
  buttonValues.foldl (trackStep h) (initialState, none)

/-! ## Numerals, and the engine facts taken from the specification -/

/-- The ten decimal digit characters. -/
def digitChars : List Char :=
  ['0', '1', '2', '3', '4', '5', '6', '7', '8', '9']

/-- The number a string of decimal digits denotes in base ten, most significant digit
first, as the specification reads a decimal numeral. -/
def decimalValue (numeral : String) : Nat :=
  numeral.data.foldl (fun acc c => 10 * acc + (c.toNat - '0'.toNat)) 0

/-- A positive numeral as the keypad enters it: decimal digits only, at least one of
them not `0`. -/
def isPositiveNumeral (numeral : String) : Bool :=
  numeral.data.all (fun c => decide (c ∈ digitChars)) && numeral.data.any (fun c => c != '0')

/-- Modelled from the spec: the double-precision division of the JavaScript engine,
which is not part of the repository. The specification says that evaluation uses "IEEE
double-precision semantics (so `1/0` yields `Infinity`, not an error)": for every
positive numeral `n`, the body built from `n/0` returns a value whose `toString` text is
`"Infinity"`. -/
def DividesByZeroToInfinity {V : Type} (h : Host V) : Prop :=
  ∀ n : String, isPositiveNumeral n = true →
    ∃ v, h.callFunction (functionBody (n ++ "/0")) = some v ∧ h.toString v = some "Infinity"

/-- Modelled from the spec: a host that knows of the engine only the division of a
positive numeral by zero, with the result the specification gives for it. A body
`return (n/0)` with `n` a positive numeral returns the Number `Infinity`; every other
body throws. -/
def divisionByZeroHost : Host JSValue where
  callFunction := fun body =>
    match body.data with
    | 'r' :: 'e' :: 't' :: 'u' :: 'r' :: 'n' :: ' ' :: '(' :: rest =>
      match rest.reverse with
      | ')' :: '0' :: '/' :: reversedNumeral =>
        if isPositiveNumeral ⟨reversedNumeral.reverse⟩ then some (.number "Infinity")
        else none
      | _ => none
    | _ => none
  toString := fun v => some v.text

/-! ## Basic facts -/

theorem truthy_iff (str : String) : truthy str = true ↔ str ≠ "" := by
  simp [truthy]

theorem handleButtonClick_C {V : Type} (h : Host V) (s : State) :
    handleButtonClick h s "C" = initialState := by
  simp [handleButtonClick, tryBlock, initialState]

theorem handleButtonClick_append {V : Type} (h : Host V) (s : State) (buttonValue : String)
    (hC : buttonValue ≠ "C") (hE : buttonValue ≠ "=") :
    handleButtonClick h s buttonValue
      = { s with hasError := false, inputValue := s.inputValue ++ buttonValue } := by
  cases hs : s.hasError <;> simp [handleButtonClick, tryBlock, hC, hE, hs]

theorem handleButtonClick_eq_empty {V : Type} (h : Host V) (s : State)
    (hin : s.inputValue = "") : handleButtonClick h s "=" = s := by
  simp [handleButtonClick, tryBlock, truthy, hin]

theorem handleButtonClick_eq_ok {V : Type} (h : Host V) (s : State) (v : V) (r : String)
    (hin : s.inputValue ≠ "") (hv : evaluateExpression h s.inputValue = .ok v)
    (hr : h.toString v = some r) :
    handleButtonClick h s "=" = { s with displayValue := r, inputValue := r } := by
  simp [handleButtonClick, tryBlock, truthy, hin, hv, hr]

theorem handleButtonClick_eq_error {V : Type} (h : Host V) (s : State) (e : String)
    (hin : s.inputValue ≠ "") (hv : evaluateExpression h s.inputValue = .error e) :
    handleButtonClick h s "=" = { s with hasError := true, inputValue := "" } := by
  simp [handleButtonClick, tryBlock, truthy, hin, hv]

theorem handleButtonClick_eq_toString_error {V : Type} (h : Host V) (s : State) (v : V)
    (hin : s.inputValue ≠ "") (hv : evaluateExpression h s.inputValue = .ok v)
    (hr : h.toString v = none) :
    handleButtonClick h s "=" = { s with hasError := true, inputValue := "" } := by
  simp [handleButtonClick, tryBlock, truthy, hin, hv, hr]

/-- In every state reached from the initial one, a raised error flag comes with an
empty input. -/
theorem pressAll_error_input {V : Type} (h : Host V) (buttonValues : List String) :
    (pressAll h initialState buttonValues).hasError = true →
      (pressAll h initialState buttonValues).inputValue = "" := by
  induction buttonValues using List.reverseRecOn with
  | nil => simp [pressAll, initialState]
  | append_singleton bs b ih =>
    have hstep : pressAll h initialState (bs ++ [b])
        = handleButtonClick h (pressAll h initialState bs) b := by
      simp [pressAll, List.foldl_append]
    rw [hstep]
    generalize pressAll h initialState bs = s at ih
    by_cases hC : b = "C"
    · subst hC; simp [handleButtonClick_C, initialState]
    by_cases hE : b = "="
    · subst hE
      by_cases hin : s.inputValue = ""
      · rw [handleButtonClick_eq_empty h s hin]; exact ih
      · cases hv : evaluateExpression h s.inputValue with
        | error e => simp [handleButtonClick_eq_error h s e hin hv]
        | ok v =>
          cases hr : h.toString v with
          | none => simp [handleButtonClick_eq_toString_error h s v hin hv hr]
          | some r =>
            rw [handleButtonClick_eq_ok h s v r hin hv hr]
            intro herr
            exact absurd (ih herr) hin
    · simp [handleButtonClick_append h s b hC hE]

theorem keypad_token_facts :
    ∀ t ∈ digitTokens ++ operatorTokens, t ≠ "" ∧ t ≠ "C" ∧ t ≠ "=" := by
  decide

theorem join_cons_data (t : String) (ts : List String) :
    (String.join (t :: ts)).data = t.data ++ (String.join ts).data := by
  simp [String.join_eq]

/-- Presses that are neither `C` nor `=` only append to the input and lower the flag. -/
theorem pressAll_appends {V : Type} (h : Host V) (ts : List String)
    (hts : ∀ t ∈ ts, t ≠ "C" ∧ t ≠ "=") (s : State) :
    pressAll h s ts
      = { displayValue := s.displayValue,
          inputValue := s.inputValue ++ String.join ts,
          hasError := s.hasError && ts.isEmpty } := by
  induction ts generalizing s with
  | nil =>
    cases s
    simp [pressAll, String.join]
  | cons t ts ih =>
    have ht := hts t (List.mem_cons_self t ts)
    have hts' : ∀ u ∈ ts, u ≠ "C" ∧ u ≠ "=" :=
      fun u hu => hts u (List.mem_cons_of_mem t hu)
    have hstep : pressAll h s (t :: ts) = pressAll h (handleButtonClick h s t) ts := by
      simp [pressAll]
    rw [hstep, handleButtonClick_append h s t ht.1 ht.2, ih hts']
    have hjoin : s.inputValue ++ t ++ String.join ts = s.inputValue ++ String.join (t :: ts) := by
      apply String.ext
      simp [join_cons_data]
    simp [hjoin]

theorem join_ne_empty (t : String) (ts : List String) (ht : t ≠ "") :
    String.join (t :: ts) ≠ "" := by
  intro hj
  have hd := congrArg String.data hj
  rw [join_cons_data] at hd
  have : t.data = [] := (List.append_eq_nil.mp hd).1
  exact ht (String.ext this)

/-- The digit class `\d` accepts exactly the ten characters `0` … `9`. -/
theorem digit_range (x : Char) :
    ('0'.toNat ≤ x.toNat ∧ x.toNat ≤ '9'.toNat) ↔
      x ∈ ['0', '1', '2', '3', '4', '5', '6', '7', '8', '9'] := by
  constructor
  · rintro ⟨h1, h2⟩
    have hx : x = Char.ofNat x.toNat := (Char.ofNat_toNat x).symm
    have h1' : 48 ≤ x.toNat := h1
    have h2' : x.toNat ≤ 57 := h2
    generalize x.toNat = n at hx h1' h2'
    subst hx
    interval_cases n <;> decide
  · intro hx
    simp only [List.mem_cons, List.mem_singleton, List.not_mem_nil, or_false] at hx
    rcases hx with h | h | h | h | h | h | h | h | h | h <;> subst h <;> decide

/-- A character survives line 29 exactly when it is one of the seventeen allowed
characters. -/
theorem survives_iff (x : Char) :
    (!(negatedClassMatches sanitizeClass x)) = decide (x ∈ allowedChars) := by
  have hd := digit_range x
  by_cases hx : x ∈ allowedChars
  · have : negatedClassMatches sanitizeClass x = false := by
      simp only [allowedChars, List.mem_cons, List.mem_singleton, List.not_mem_nil,
        or_false] at hx
      rcases hx with h | h | h | h | h | h | h | h | h | h | h | h | h | h | h | h | h <;>
        subst h <;> decide
    simp [this, hx]
  · have : negatedClassMatches sanitizeClass x = true := by
      have hnd : ¬ ('0'.toNat ≤ x.toNat ∧ x.toNat ≤ '9'.toNat) := by
        intro hc
        apply hx
        have := hd.mp hc
        simp only [allowedChars, List.mem_cons, List.mem_singleton, List.not_mem_nil,
          or_false] at this ⊢
        tauto
      simp only [allowedChars, List.mem_cons, List.mem_singleton, List.not_mem_nil,
        or_false, not_or] at hx
      simp [negatedClassMatches, sanitizeClass, ClassItem.accepts]
      refine ⟨hx.2.2.2.2.2.2.2.2.2.2.2.1, hx.2.2.2.2.2.2.2.2.2.2.2.2.2.2.1,
        hx.2.2.2.2.2.2.2.2.2.2.2.2.2.2.2.1, ?_, hx.2.2.2.2.2.2.2.2.2.2.2.2.2.1,
        hx.2.2.2.2.2.2.2.2.2.2.2.2.1, hx.2.2.2.2.2.2.2.2.2.2.1,
        hx.2.2.2.2.2.2.2.2.2.2.2.2.2.2.2.2⟩
      have hnd' : ¬ (48 ≤ x.toNat ∧ x.toNat ≤ 57) := hnd
      omega
    simp [this, hx]

theorem sanitize_eq_specSanitize (expression : String) :
    sanitize expression = specSanitize expression := by
  simp only [sanitize, replaceAllWithEmpty, specSanitize]
  congr 1
  apply List.filter_congr
  intro x _
  exact survives_iff x

/-! ## The claims -/

/-- C1, as stated, fails on the empty sequence of presses: nothing has been pressed, the
concatenation of the pressed tokens is the empty string, and the display shows `"0"`. -/
theorem C1_counterexample :
    (∀ t ∈ ([] : List String), t ∈ digitTokens ++ operatorTokens) ∧
      displayText (pressAll (tableHost []) initialState []) = "0" ∧
      displayText (pressAll (tableHost []) initialState []) ≠ String.join [] := by
  decide

/-- C1 (amended): starting from the initial state, after a sequence of presses of digit
and operator tokens the displayed text is the concatenation of the pressed tokens in
order when the sequence is non-empty, and `"0"` when it is empty. -/
theorem C1_display_is_concatenation {V : Type} (h : Host V) (ts : List String)
    (hts : ∀ t ∈ ts, t ∈ digitTokens ++ operatorTokens) :
    displayText (pressAll h initialState ts)
      = if ts = [] then "0" else String.join ts := by
  have hts' : ∀ t ∈ ts, t ≠ "C" ∧ t ≠ "=" :=
    fun t ht => (keypad_token_facts t (hts t ht)).2
  rw [pressAll_appends h ts hts' initialState]
  cases ts with
  | nil => decide
  | cons t ts =>
    have hne : String.join (t :: ts) ≠ "" :=
      join_ne_empty t ts (keypad_token_facts t (hts t (List.mem_cons_self t ts))).1
    have hin : initialState.inputValue ++ String.join (t :: ts) = String.join (t :: ts) := by
      apply String.ext
      simp [initialState]
    simp [displayText, jsOr, truthy, hin, hne, initialState]

/-- Witness of C1 (amended) at the presses `2`, `+`, `3`. -/
theorem C1_display_is_concatenation_witness :
    (∀ t ∈ ["2", "+", "3"], t ∈ digitTokens ++ operatorTokens) ∧
      displayText (pressAll (tableHost []) initialState ["2", "+", "3"])
        = (if ["2", "+", "3"] = [] then "0" else String.join ["2", "+", "3"]) :=
  ⟨by decide, C1_display_is_concatenation (tableHost []) ["2", "+", "3"] (by decide)⟩

/-- C2: from every state, pressing `C` yields the initial state (empty input, display
value `"0"`, error flag down), so the displayed text is `"0"` right afterwards. -/
theorem C2_clear_resets {V : Type} (h : Host V) (s : State) :
    handleButtonClick h s "C"
        = { displayValue := "0", inputValue := "", hasError := false } ∧
      handleButtonClick h s "C" = initialState ∧
      displayText (handleButtonClick h s "C") = "0" := by
  rw [handleButtonClick_C]
  exact ⟨rfl, rfl, by decide⟩

/-- C3: in every state the component can be in (reached from the initial state by a
press sequence) whose input is non-empty, when evaluating the input succeeds with a
value whose string form is `r`, pressing `=` sets both the display value and the input
to `r`, and the error flag is down afterwards. -/
theorem C3_success_sets_result {V : Type} (h : Host V) (ts : List String) (v : V)
    (r : String) (hin : (pressAll h initialState ts).inputValue ≠ "")
    (hv : evaluateExpression h (pressAll h initialState ts).inputValue = .ok v)
    (hr : h.toString v = some r) :
    (handleButtonClick h (pressAll h initialState ts) "=").displayValue = r ∧
      (handleButtonClick h (pressAll h initialState ts) "=").inputValue = r ∧
      (handleButtonClick h (pressAll h initialState ts) "=").hasError = false := by
  have hinv := pressAll_error_input h ts
  rw [handleButtonClick_eq_ok h _ v r hin hv hr]
  refine ⟨rfl, rfl, ?_⟩
  cases hflag : (pressAll h initialState ts).hasError with
  | false => rfl
  | true => exact absurd (hinv hflag) hin

/-- Witness of C3 at the presses `2`, `+`, `3`. -/
theorem C3_success_sets_result_witness :
    (handleButtonClick (tableHost [("return (2+3)", "5")])
        (pressAll (tableHost [("return (2+3)", "5")]) initialState ["2", "+", "3"])
        "=").displayValue = "5" ∧
      (handleButtonClick (tableHost [("return (2+3)", "5")])
        (pressAll (tableHost [("return (2+3)", "5")]) initialState ["2", "+", "3"])
        "=").inputValue = "5" ∧
      (handleButtonClick (tableHost [("return (2+3)", "5")])
        (pressAll (tableHost [("return (2+3)", "5")]) initialState ["2", "+", "3"])
        "=").hasError = false :=
  C3_success_sets_result (tableHost [("return (2+3)", "5")]) ["2", "+", "3"] "5" "5"
    (by decide) rfl rfl

/-- C4: in every state with a non-empty input, when evaluating the input throws,
pressing `=` raises the error flag, empties the input, leaves the display value as it
was, and the displayed text is `"Error"`. -/
theorem C4_failure_sets_error {V : Type} (h : Host V) (s : State) (e : String)
    (hin : s.inputValue ≠ "") (hv : evaluateExpression h s.inputValue = .error e) :
    (handleButtonClick h s "=").hasError = true ∧
      (handleButtonClick h s "=").inputValue = "" ∧
      (handleButtonClick h s "=").displayValue = s.displayValue ∧
      displayText (handleButtonClick h s "=") = "Error" := by
  rw [handleButtonClick_eq_error h s e hin hv]
  simp [displayText]

/-- Witness of C4 at the input `5+`, whose function body `return (5+)` does not
compile. -/
theorem C4_failure_sets_error_witness :
    (handleButtonClick (tableHost []) ⟨"7", "5+", false⟩ "=").hasError = true ∧
      (handleButtonClick (tableHost []) ⟨"7", "5+", false⟩ "=").inputValue = "" ∧
      (handleButtonClick (tableHost []) ⟨"7", "5+", false⟩ "=").displayValue
        = (⟨"7", "5+", false⟩ : State).displayValue ∧
      displayText (handleButtonClick (tableHost []) ⟨"7", "5+", false⟩ "=") = "Error" :=
  C4_failure_sets_error (tableHost []) ⟨"7", "5+", false⟩ "Invalid expression"
    (by decide) rfl

/-- C5: in every state with an empty input, whatever the display value and the error
flag, pressing `=` returns the state unchanged and `evaluateExpression` is not
called. -/
theorem C5_equals_on_empty_is_noop {V : Type} (h : Host V) (s : State)
    (hin : s.inputValue = "") :
    handleButtonClick h s "=" = s ∧
      (tryBlock h s "=").evaluated = [] ∧
      (tryBlock h s "=").outcome = .ok s := by
  refine ⟨handleButtonClick_eq_empty h s hin, ?_, ?_⟩ <;>
    simp [tryBlock, truthy, hin]

/-- Witness of C5 at an error state with an empty input and a stale display value. -/
theorem C5_equals_on_empty_is_noop_witness :
    handleButtonClick (tableHost []) ⟨"7", "", true⟩ "=" = ⟨"7", "", true⟩ ∧
      (tryBlock (tableHost []) ⟨"7", "", true⟩ "=").evaluated = [] ∧
      (tryBlock (tableHost []) ⟨"7", "", true⟩ "=").outcome = .ok ⟨"7", "", true⟩ :=
  C5_equals_on_empty_is_noop (tableHost []) ⟨"7", "", true⟩ rfl

/-- C6: when a sequence of presses from the initial state ends in an `=` whose
evaluation throws, the displayed text is `"Error"`, and a following press of a digit
`d` makes the displayed text exactly `d`. -/
theorem C6_digit_after_error {V : Type} (h : Host V) (ts : List String) (e : String)
    (d : String) (hd : d ∈ digitTokens)
    (hin : (pressAll h initialState ts).inputValue ≠ "")
    (hv : evaluateExpression h (pressAll h initialState ts).inputValue = .error e) :
    displayText (pressAll h initialState (ts ++ ["="])) = "Error" ∧
      displayText (pressAll h initialState (ts ++ ["=", d])) = d := by
  have h1 : pressAll h initialState (ts ++ ["="])
      = handleButtonClick h (pressAll h initialState ts) "=" := by
    simp [pressAll, List.foldl_append]
  have h2 : pressAll h initialState (ts ++ ["=", d])
      = handleButtonClick h (handleButtonClick h (pressAll h initialState ts) "=") d := by
    simp [pressAll, List.foldl_append]
  have hfacts := keypad_token_facts d (List.mem_append_left _ hd)
  rw [h1, h2, handleButtonClick_eq_error h _ e hin hv,
    handleButtonClick_append h _ d hfacts.2.1 hfacts.2.2]
  have hd' : ("" : String) ++ d = d := by
    apply String.ext
    simp
  simp [displayText, jsOr, truthy, hd', hfacts.1]

/-- Witness of C6 at the presses `5`, `+`, `=` followed by `9`. -/
theorem C6_digit_after_error_witness :
    displayText (pressAll (tableHost []) initialState (["5", "+"] ++ ["="])) = "Error" ∧
      displayText (pressAll (tableHost []) initialState (["5", "+"] ++ ["=", "9"])) = "9" :=
  C6_digit_after_error (tableHost []) ["5", "+"] "Invalid expression" "9"
    (by decide) (by decide) rfl

/-- C8: for every string, the text that `evaluateExpression` interpolates into the body
handed to `new Function` is the string with exactly the characters outside the
seventeen allowed ones removed: it is a subsequence of the input, all its characters
are allowed, and each allowed character occurs as often as in the input. -/
theorem C8_sanitize_keeps_exactly_allowed (expression : String) :
    sanitize expression = specSanitize expression ∧
      (sanitize expression).data.Sublist expression.data ∧
      (∀ x ∈ (sanitize expression).data, x ∈ allowedChars) ∧
      (∀ x ∈ allowedChars,
        (sanitize expression).data.count x = expression.data.count x) ∧
      allowedChars.length = 17 ∧ allowedChars.Nodup ∧
      (∀ (V : Type) (h : Host V),
        evaluateExpression h expression
          = match h.callFunction ("return (" ++ specSanitize expression ++ ")") with
            | some result => .ok result
            | none => .error "Invalid expression") := by
  have heq := sanitize_eq_specSanitize expression
  refine ⟨heq, ?_, ?_, ?_, by decide, by decide, ?_⟩
  · rw [heq]
    exact List.filter_sublist _
  · rw [heq]
    intro x hx
    simpa using (List.mem_filter.mp hx).2
  · rw [heq]
    intro x hx
    simp only [specSanitize]
    rw [List.count_filter]
    simpa using hx
  · intro V h
    simp only [evaluateExpression, functionBody, heq]

/-- C9: `handleButtonClick` is a function from every state and every token string to
a state, and nothing escapes it. Its `try` block throws exactly on `=` with a non-empty
input whose evaluation (or the `toString` of its result) throws; the `catch` block then
yields the old state with the flag raised and the input emptied, and nothing else
changed. In every other case the result is the state the `try` block produced: the
initial state on `C`, the same state on `=` with an empty input, the result text in
both strings on a successful `=`, and the appended input on any other token. -/
theorem C9_press_total {V : Type} (h : Host V) (s : State) (buttonValue : String) :
    ((tryBlock h s buttonValue).threw = true ↔
        (buttonValue = "=" ∧ s.inputValue ≠ "" ∧
          ((∃ e, evaluateExpression h s.inputValue = .error e) ∨
            ∃ v, evaluateExpression h s.inputValue = .ok v ∧ h.toString v = none))) ∧
      ((tryBlock h s buttonValue).threw = true →
        handleButtonClick h s buttonValue
          = { displayValue := s.displayValue, inputValue := "", hasError := true }) ∧
      ((tryBlock h s buttonValue).threw = false →
        (tryBlock h s buttonValue).outcome = .ok (handleButtonClick h s buttonValue)) ∧
      (∀ e, buttonValue = "=" → s.inputValue ≠ "" →
        evaluateExpression h s.inputValue = .error e →
        handleButtonClick h s buttonValue
          = { displayValue := s.displayValue, inputValue := "", hasError := true }) ∧
      (∀ v r, buttonValue = "=" → s.inputValue ≠ "" →
        evaluateExpression h s.inputValue = .ok v → h.toString v = some r →
        handleButtonClick h s buttonValue
          = { displayValue := r, inputValue := r, hasError := s.hasError }) ∧
      (buttonValue = "=" → s.inputValue = "" → handleButtonClick h s buttonValue = s) ∧
      (buttonValue = "C" → handleButtonClick h s buttonValue = initialState) ∧
      (buttonValue ≠ "C" → buttonValue ≠ "=" →
        handleButtonClick h s buttonValue
          = { displayValue := s.displayValue, inputValue := s.inputValue ++ buttonValue,
              hasError := false }) := by
  have hErr : ∀ e, buttonValue = "=" → s.inputValue ≠ "" →
      evaluateExpression h s.inputValue = .error e →
      handleButtonClick h s buttonValue
        = { displayValue := s.displayValue, inputValue := "", hasError := true } := by
    intro e hb hin hv
    subst hb
    rw [handleButtonClick_eq_error h s e hin hv]
  have hOk : ∀ v r, buttonValue = "=" → s.inputValue ≠ "" →
      evaluateExpression h s.inputValue = .ok v → h.toString v = some r →
      handleButtonClick h s buttonValue
        = { displayValue := r, inputValue := r, hasError := s.hasError } := by
    intro v r hb hin hv hr
    subst hb
    rw [handleButtonClick_eq_ok h s v r hin hv hr]
  have hEmpty : buttonValue = "=" → s.inputValue = "" →
      handleButtonClick h s buttonValue = s := by
    intro hb hin
    subst hb
    exact handleButtonClick_eq_empty h s hin
  have hClear : buttonValue = "C" → handleButtonClick h s buttonValue = initialState := by
    intro hb
    subst hb
    exact handleButtonClick_C h s
  have hApp : buttonValue ≠ "C" → buttonValue ≠ "=" →
      handleButtonClick h s buttonValue
        = { displayValue := s.displayValue, inputValue := s.inputValue ++ buttonValue,
            hasError := false } := by
    intro hC hE
    rw [handleButtonClick_append h s buttonValue hC hE]
  refine ⟨?_, ?_, ?_, hErr, hOk, hEmpty, hClear, hApp⟩
  · by_cases hC : buttonValue = "C"
    · subst hC; simp [tryBlock, Attempt.threw]
    by_cases hE : buttonValue = "="
    · subst hE
      by_cases hin : s.inputValue = ""
      · simp [tryBlock, Attempt.threw, truthy, hin]
      · cases hv : evaluateExpression h s.inputValue with
        | error e => simp [tryBlock, Attempt.threw, truthy, hin, hv]
        | ok v =>
          cases hr : h.toString v with
          | none => simp [tryBlock, Attempt.threw, truthy, hin, hv, hr]
          | some r => simp [tryBlock, Attempt.threw, truthy, hin, hv, hr]
    · simp [tryBlock, Attempt.threw, hC, hE]
  · intro hthrew
    cases hout : (tryBlock h s buttonValue).outcome with
    | ok s' => simp [Attempt.threw, hout] at hthrew
    | error e => simp [handleButtonClick, hout]
  · intro hthrew
    cases hout : (tryBlock h s buttonValue).outcome with
    | ok s' => simp [handleButtonClick, hout]
    | error e => simp [Attempt.threw, hout] at hthrew

/-- Witness of C9 at the input `5+`, whose function body `return (5+)` does not
compile: the `try` block throws and the press yields the error state. -/
theorem C9_press_total_witness :
    (tryBlock (tableHost []) ⟨"7", "5+", false⟩ "=").threw = true ∧
      handleButtonClick (tableHost []) ⟨"7", "5+", false⟩ "=" = ⟨"7", "", true⟩ :=
  ⟨by decide, (C9_press_total (tableHost []) ⟨"7", "5+", false⟩ "=").2.1 (by decide)⟩

/-- C10: the displayed text is `"Error"` when the error flag is up, whatever the input
and the display value; otherwise the input itself when it is non-empty; otherwise the
display value. It is a function of the state alone and returns only a string. -/
theorem C10_displayText_cases (s : State) :
    displayText s
      = if s.hasError = true then "Error"
        else if s.inputValue ≠ "" then s.inputValue
        else s.displayValue := by
  cases hflag : s.hasError <;> by_cases hin : s.inputValue = "" <;>
    simp [displayText, jsOr, truthy, hflag, hin]

/-! ## Facts about press sequences -/

theorem pressAll_snoc {V : Type} (h : Host V) (s : State) (ts : List String) (b : String) :
    pressAll h s (ts ++ [b]) = handleButtonClick h (pressAll h s ts) b := by
  simp [pressAll, List.foldl_append]

theorem track_snoc {V : Type} (h : Host V) (ts : List String) (b : String) :
    track h (ts ++ [b]) = trackStep h (track h ts) b := by
  simp [track, List.foldl_append]

theorem track_fst {V : Type} (h : Host V) (ts : List String) :
    (track h ts).1 = pressAll h initialState ts := by
  induction ts using List.reverseRecOn with
  | nil => rfl
  | append_singleton ts b ih => rw [track_snoc, pressAll_snoc, ← ih]; rfl

theorem tryBlock_evaluated_of_ne {V : Type} (h : Host V) (s : State) (b : String)
    (hE : b ≠ "=") : (tryBlock h s b).evaluated = [] := by
  by_cases hC : b = "C" <;> simp [tryBlock, hC, hE]

theorem tryBlock_evaluated_empty {V : Type} (h : Host V) (s : State)
    (hin : s.inputValue = "") : (tryBlock h s "=").evaluated = [] := by
  simp [tryBlock, truthy, hin]

theorem tryBlock_evaluated_nonempty {V : Type} (h : Host V) (s : State)
    (hin : s.inputValue ≠ "") : (tryBlock h s "=").evaluated = [s.inputValue] := by
  simp [tryBlock, truthy, hin]

/-- On `=` with a non-empty input, the flag afterwards is raised when the `try` block
threw and is the old flag otherwise. -/
theorem handleButtonClick_eq_flag {V : Type} (h : Host V) (s : State)
    (hin : s.inputValue ≠ "") :
    (handleButtonClick h s "=").hasError
      = ((tryBlock h s "=").threw || s.hasError) := by
  cases hv : evaluateExpression h s.inputValue with
  | error e => simp [handleButtonClick, tryBlock, Attempt.threw, truthy, hin, hv]
  | ok v =>
    cases hr : h.toString v with
    | none => simp [handleButtonClick, tryBlock, Attempt.threw, truthy, hin, hv, hr]
    | some r => simp [handleButtonClick, tryBlock, Attempt.threw, truthy, hin, hv, hr]

theorem append_ne_empty (a b : String) (hb : b ≠ "") : a ++ b ≠ "" := by
  intro hab
  have hd := congrArg String.data hab
  rw [String.data_append] at hd
  exact hb (String.ext (List.append_eq_nil.mp hd).2)

theorem empty_append (b : String) : ("" : String) ++ b = b := by
  apply String.ext
  simp

/-! ## The claims, continued -/

/-- C11: the code at two results whose text does not survive line 29. After the presses
`1`, `/`, `0`, `=` the input is the result text `Infinity`; sanitizing it leaves the
empty string, the body `return ()` does not compile, and the second `=` raises the
error flag: the displayed text goes from `"Infinity"` to `"Error"`. After `1`, twenty-one
`0`, `=` the input is the result text `1e+21`; sanitizing drops the `e`, the body
`return (1+21)` returns 22, and the second `=` changes the displayed text from
`"1e+21"` to `"22"`. -/
theorem C11_second_equals_changes_display :
    displayText (pressAll (tableHost [("return (1/0)", "Infinity")]) initialState
        ["1", "/", "0", "="]) = "Infinity" ∧
      sanitize "Infinity" = "" ∧
      (pressAll (tableHost [("return (1/0)", "Infinity")]) initialState
        ["1", "/", "0", "=", "="]).hasError = true ∧
      displayText (pressAll (tableHost [("return (1/0)", "Infinity")]) initialState
        ["1", "/", "0", "=", "="]) = "Error" ∧
      displayText
          (pressAll
            (tableHost [("return (1000000000000000000000)", "1e+21"), ("return (1+21)", "22")])
            initialState
            ["1", "0", "0", "0", "0", "0", "0", "0", "0", "0", "0", "0", "0", "0", "0", "0",
              "0", "0", "0", "0", "0", "0", "="])
        = "1e+21" ∧
      sanitize "1e+21" = "1+21" ∧
      displayText
          (pressAll
            (tableHost [("return (1000000000000000000000)", "1e+21"), ("return (1+21)", "22")])
            initialState
            ["1", "0", "0", "0", "0", "0", "0", "0", "0", "0", "0", "0", "0", "0", "0", "0",
              "0", "0", "0", "0", "0", "0", "=", "="])
        = "22" := by
  decide

/-- C12: the code at two malformed inputs. The input `1)+(2` has unbalanced parentheses,
yet its body `return (1)+(2)` compiles and returns 3; the input `2/*3*/`, reached by the
keypad presses `2 / * 3 * /`, ends in an operator, yet in its body `return (2/*3*/)` the
text `/*3*/` is a comment and 2 is returned. In both cases `=` leaves the error flag
down and the displayed text is the result, not `"Error"`. -/
theorem C12_malformed_input_evaluates :
    handleButtonClick (tableHost [("return (1)+(2)", "3")]) ⟨"0", "1)+(2", false⟩ "="
        = ⟨"3", "3", false⟩ ∧
      displayText (handleButtonClick (tableHost [("return (1)+(2)", "3")])
        ⟨"0", "1)+(2", false⟩ "=") = "3" ∧
      pressAll (tableHost [("return (2/*3*/)", "2")]) initialState
          ["2", "/", "*", "3", "*", "/", "="]
        = ⟨"2", "2", false⟩ ∧
      displayText (pressAll (tableHost [("return (2/*3*/)", "2")]) initialState
        ["2", "/", "*", "3", "*", "/", "="]) = "2" := by
  decide

/-- C14: for every state and every token other than `C` and `=`, whatever its
characters, the press sets the input to the old input followed by the token, lowers the
error flag, keeps the display value, and does not call `evaluateExpression`. -/
theorem C14_append_any_token {V : Type} (h : Host V) (s : State) (buttonValue : String)
    (hC : buttonValue ≠ "C") (hE : buttonValue ≠ "=") :
    (handleButtonClick h s buttonValue).inputValue = s.inputValue ++ buttonValue ∧
      (handleButtonClick h s buttonValue).hasError = false ∧
      (handleButtonClick h s buttonValue).displayValue = s.displayValue ∧
      (tryBlock h s buttonValue).evaluated = [] := by
  rw [handleButtonClick_append h s buttonValue hC hE]
  exact ⟨rfl, rfl, rfl, tryBlock_evaluated_of_ne h s buttonValue hE⟩

/-- Witness of C14 at a token outside the keypad, pressed in an error state. -/
theorem C14_append_any_token_witness :
    (handleButtonClick (tableHost []) ⟨"7", "5+", true⟩ "x)y").inputValue = "5+" ++ "x)y" ∧
      (handleButtonClick (tableHost []) ⟨"7", "5+", true⟩ "x)y").hasError = false ∧
      (handleButtonClick (tableHost []) ⟨"7", "5+", true⟩ "x)y").displayValue = "7" ∧
      (tryBlock (tableHost []) ⟨"7", "5+", true⟩ "x)y").evaluated = [] :=
  C14_append_any_token (tableHost []) ⟨"7", "5+", true⟩ "x)y" (by decide) (by decide)

/-- C15, as stated, fails after the presses `5`, `+`, `=`, `9`: the most recent
evaluation attempt (on `5+`) threw, one press has been made since, and the error flag
is down. -/
theorem C15_counterexample :
    (track (tableHost []) ["5", "+", "=", "9"]).2 = some (true, ["9"]) ∧
      (track (tableHost []) ["5", "+", "=", "9"]).1
        = pressAll (tableHost []) initialState ["5", "+", "=", "9"] ∧
      (pressAll (tableHost []) initialState ["5", "+", "=", "9"]).hasError = false := by
  decide

/-- C15 (amended): in every state reached from the initial state by a sequence of
presses, the error flag is up exactly when the most recent evaluation attempt threw and
every press made after it was an `=`. -/
theorem C15_flag_iff_failed_attempt_pending {V : Type} (h : Host V) (ts : List String) :
    (pressAll h initialState ts).hasError = true ↔
      ∃ post, (track h ts).2 = some (true, post) ∧ ∀ b ∈ post, b = "=" := by
  induction ts using List.reverseRecOn with
  | nil => simp [pressAll, track, initialState]
  | append_singleton ts b ih =>
    have hinv := pressAll_error_input h ts
    rw [pressAll_snoc, track_snoc]
    simp only [trackStep, track_fst]
    generalize pressAll h initialState ts = s at ih hinv
    by_cases hE : b = "="
    · subst hE
      by_cases hin : s.inputValue = ""
      · rw [handleButtonClick_eq_empty h s hin, tryBlock_evaluated_empty h s hin, ih]
        simp only [List.isEmpty_nil, if_true]
        constructor
        · rintro ⟨post, hpost, hall⟩
          refine ⟨post ++ ["="], by simp [hpost], ?_⟩
          intro c hc
          rcases List.mem_append.mp hc with hc | hc
          · exact hall c hc
          · simpa using hc
        · rintro ⟨post, hpost, hall⟩
          rcases hacc : (track h ts).2 with _ | ⟨f, post0⟩
          · simp [hacc] at hpost
          · simp only [hacc, Option.map_some', Option.some.injEq, Prod.mk.injEq] at hpost
            refine ⟨post0, by rw [hpost.1], ?_⟩
            intro c hc
            exact hall c (by rw [← hpost.2]; exact List.mem_append_left _ hc)
      · have hflag : s.hasError = false := by
          cases hs : s.hasError with
          | false => rfl
          | true => exact absurd (hinv hs) hin
        rw [handleButtonClick_eq_flag h s hin, tryBlock_evaluated_nonempty h s hin, hflag]
        simp only [Bool.or_false, List.isEmpty_cons, Bool.false_eq_true, if_false,
          Option.some.injEq, Prod.mk.injEq]
        constructor
        · intro hthrew
          exact ⟨[], ⟨hthrew, rfl⟩, by simp⟩
        · rintro ⟨post, ⟨hthrew, _⟩, _⟩
          exact hthrew
    · have hev := tryBlock_evaluated_of_ne h s b hE
      have hfalse : (handleButtonClick h s b).hasError = false := by
        by_cases hC : b = "C"
        · subst hC; simp [handleButtonClick_C, initialState]
        · simp [handleButtonClick_append h s b hC hE]
      rw [hev, hfalse]
      simp only [List.isEmpty_nil, if_true]
      constructor
      · intro hcontra
        exact absurd hcontra (by decide)
      · rintro ⟨post, hpost, hall⟩
        rcases hacc : (track h ts).2 with _ | ⟨f, post0⟩
        · simp [hacc] at hpost
        · simp only [hacc, Option.map_some', Option.some.injEq, Prod.mk.injEq] at hpost
          exact absurd (hall b (by rw [← hpost.2]; simp)) hE

/-- C16: the code at the expression `/1/`, reached by the keypad presses `/ 1 /`. Its
body `return (/1/)` holds a regular-expression literal, so `evaluateExpression` returns
a RegExp, not a number, and `=` puts its text `/1/` in the display. -/
theorem C16_returns_non_number :
    evaluateExpression (valueHost [("return (/1/)", .regExp "1")]) "/1/"
        = .ok (.regExp "1") ∧
      (JSValue.regExp "1").isNumber = false ∧
      pressAll (valueHost [("return (/1/)", .regExp "1")]) initialState ["/", "1", "/", "="]
        = ⟨"/1/", "/1/", false⟩ := by
  refine ⟨rfl, rfl, by decide⟩

/-- C17: in every state reached from the initial state with the error flag up, the
input is empty; so a following press of a token other than `C` and `=` makes the input
exactly that token, and a following `=` returns the state unchanged without calling
`evaluateExpression`. -/
theorem C17_error_implies_empty_input {V : Type} (h : Host V) (ts : List String)
    (herr : (pressAll h initialState ts).hasError = true) :
    (pressAll h initialState ts).inputValue = "" ∧
      (∀ b, b ≠ "C" → b ≠ "=" →
        (handleButtonClick h (pressAll h initialState ts) b).inputValue = b) ∧
      handleButtonClick h (pressAll h initialState ts) "=" = pressAll h initialState ts ∧
      (tryBlock h (pressAll h initialState ts) "=").evaluated = [] := by
  have hin := pressAll_error_input h ts herr
  refine ⟨hin, ?_, handleButtonClick_eq_empty h _ hin, tryBlock_evaluated_empty h _ hin⟩
  intro b hC hE
  rw [handleButtonClick_append h _ b hC hE]
  simp [hin, empty_append]

/-- Witness of C17 at the presses `5`, `+`, `=`. -/
theorem C17_error_implies_empty_input_witness :
    (pressAll (tableHost []) initialState ["5", "+", "="]).hasError = true ∧
      (pressAll (tableHost []) initialState ["5", "+", "="]).inputValue = "" :=
  ⟨by decide, (C17_error_implies_empty_input (tableHost []) ["5", "+", "="] (by decide)).1⟩

/-- C18: in every state reached from the initial state by presses of non-empty tokens,
on a host whose evaluation results never print as the empty string, an error flag that
is down together with an empty input implies that the display value is `"0"`. -/
theorem C18_idle_display_is_zero {V : Type} (h : Host V) (ts : List String)
    (htok : ∀ t ∈ ts, t ≠ "")
    (hres : ∀ body v, h.callFunction body = some v → h.toString v ≠ some "")
    (hflag : (pressAll h initialState ts).hasError = false)
    (hin : (pressAll h initialState ts).inputValue = "") :
    (pressAll h initialState ts).displayValue = "0" := by
  induction ts using List.reverseRecOn with
  | nil => rfl
  | append_singleton ts b ih =>
    have hb : b ≠ "" := htok b (by simp)
    have ih' := ih (fun t ht => htok t (List.mem_append_left _ ht))
    rw [pressAll_snoc] at hflag hin ⊢
    generalize pressAll h initialState ts = s at ih' hflag hin
    by_cases hC : b = "C"
    · subst hC; simp [handleButtonClick_C, initialState]
    by_cases hE : b = "="
    · subst hE
      by_cases hempty : s.inputValue = ""
      · rw [handleButtonClick_eq_empty h s hempty] at hflag hin ⊢
        exact ih' hflag hin
      · cases hv : evaluateExpression h s.inputValue with
        | error e =>
          rw [handleButtonClick_eq_error h s e hempty hv] at hflag
          exact absurd hflag (by simp)
        | ok v =>
          cases hr : h.toString v with
          | none =>
            rw [handleButtonClick_eq_toString_error h s v hempty hv hr] at hflag
            exact absurd hflag (by simp)
          | some r =>
            rw [handleButtonClick_eq_ok h s v r hempty hv hr] at hin
            have hbody : h.callFunction (functionBody (sanitize s.inputValue)) = some v := by
              simp only [evaluateExpression] at hv
              cases hc : h.callFunction (functionBody (sanitize s.inputValue)) with
              | none => simp [hc] at hv
              | some w => simp [hc] at hv; rw [hv]
            have hrne := hres _ v hbody
            simp only at hin
            exact absurd (by rw [hr, hin]) hrne
    · rw [handleButtonClick_append h s b hC hE] at hin
      exact absurd hin (append_ne_empty s.inputValue b hb)

/-- Witness of C18 at the presses `2`, `+`, `3`, `=`, `C`. -/
theorem C18_idle_display_is_zero_witness :
    (pressAll (tableHost [("return (2+3)", "5")]) initialState
        ["2", "+", "3", "=", "C"]).hasError = false ∧
      (pressAll (tableHost [("return (2+3)", "5")]) initialState
        ["2", "+", "3", "=", "C"]).inputValue = "" ∧
      (pressAll (tableHost [("return (2+3)", "5")]) initialState
        ["2", "+", "3", "=", "C"]).displayValue = "0" :=
  ⟨by decide, by decide,
    C18_idle_display_is_zero (tableHost [("return (2+3)", "5")]) ["2", "+", "3", "=", "C"]
      (by decide)
      (by
        intro body v hbody
        simp only [tableHost, List.lookup] at hbody
        split at hbody
        · cases hbody; decide
        · cases hbody)
      (by decide) (by decide)⟩

/-! ## Numerals and division by zero -/

theorem digitChars_allowed : ∀ c ∈ digitChars, c ∈ allowedChars := by
  decide

/-- A positive numeral followed by `/0` passes line 29 unchanged. -/
theorem sanitize_numeral_div_zero (n : String) (hn : isPositiveNumeral n = true) :
    sanitize (n ++ "/0") = n ++ "/0" := by
  rw [sanitize_eq_specSanitize]
  apply String.ext
  simp only [specSanitize, String.data_append]
  apply List.filter_eq_self.mpr
  intro c hc
  have hdigits : ∀ x ∈ n.data, x ∈ digitChars := by
    simp only [isPositiveNumeral, Bool.and_eq_true, List.all_eq_true,
      decide_eq_true_eq] at hn
    exact hn.1
  rcases List.mem_append.mp hc with hc | hc
  · exact decide_eq_true (digitChars_allowed c (hdigits c hc))
  · have hc' : c = '/' ∨ c = '0' := by simpa using hc
    rcases hc' with hc' | hc' <;> subst hc' <;> decide

theorem functionBody_data (n : String) :
    (functionBody (n ++ "/0")).data
      = 'r' :: 'e' :: 't' :: 'u' :: 'r' :: 'n' :: ' ' :: '(' :: (n.data ++ ['/', '0', ')']) := by
  simp [functionBody, String.data_append]

/-- The host built from the specification's sentence has the property it is built
for. -/
theorem divisionByZeroHost_divides : DividesByZeroToInfinity divisionByZeroHost := by
  intro n hn
  refine ⟨.number "Infinity", ?_, rfl⟩
  have hrev : (n.data ++ ['/', '0', ')']).reverse = ')' :: '0' :: '/' :: n.data.reverse := by
    simp
  have hn' : isPositiveNumeral ⟨n.data.reverse.reverse⟩ = true := by
    rw [List.reverse_reverse]
    exact hn
  simp only [divisionByZeroHost, functionBody_data, hrev, hn', if_true]

/-- C7: the code at the keypad presses `0`, `1`, `0`, `=` and `0`, `1`, `0`, `+`, `1`,
`=`. The inputs `010` and `010+1` are valid expressions over decimal numerals, of value
ten and eleven. In the bodies `return (010)` and `return (010+1)` the engine reads `010`
as a legacy octal literal, so the presses succeed with the displayed texts `"8"` and
`"9"`, whose values are not ten and eleven. -/
theorem C7_leading_zero_read_as_octal :
    pressAll (valueHost [("return (010)", .number "8")]) initialState ["0", "1", "0"]
        = ⟨"0", "010", false⟩ ∧
      sanitize "010" = "010" ∧
      decimalValue "010" = 10 ∧
      pressAll (valueHost [("return (010)", .number "8")]) initialState ["0", "1", "0", "="]
        = ⟨"8", "8", false⟩ ∧
      displayText (pressAll (valueHost [("return (010)", .number "8")]) initialState
        ["0", "1", "0", "="]) = "8" ∧
      decimalValue "8" ≠ decimalValue "010" ∧
      sanitize "010+1" = "010+1" ∧
      displayText (pressAll (valueHost [("return (010+1)", .number "9")]) initialState
        ["0", "1", "0", "+", "1", "="]) = "9" ∧
      decimalValue "9" ≠ decimalValue "010" + decimalValue "1" := by
  decide

/-- C13: on a host whose division by zero is the one the specification describes, for
every positive numeral `n` and every state reached from the initial state whose input
is `n/0`, evaluating the input succeeds with a value printed as `Infinity`, and after
`=` the error flag is down and both the input and the displayed text are
`"Infinity"`. -/
theorem C13_division_by_zero_shows_infinity {V : Type} (h : Host V)
    (hieee : DividesByZeroToInfinity h) (n : String) (hn : isPositiveNumeral n = true)
    (ts : List String) (hbuf : (pressAll h initialState ts).inputValue = n ++ "/0") :
    (∃ v, evaluateExpression h (n ++ "/0") = .ok v ∧ h.toString v = some "Infinity") ∧
      (handleButtonClick h (pressAll h initialState ts) "=").hasError = false ∧
      (handleButtonClick h (pressAll h initialState ts) "=").inputValue = "Infinity" ∧
      displayText (handleButtonClick h (pressAll h initialState ts) "=") = "Infinity" := by
  obtain ⟨v, hcall, htext⟩ := hieee n hn
  have hev : evaluateExpression h (n ++ "/0") = .ok v := by
    simp [evaluateExpression, sanitize_numeral_div_zero n hn, hcall]
  have hin : (pressAll h initialState ts).inputValue ≠ "" := by
    rw [hbuf]
    exact append_ne_empty n "/0" (by decide)
  have hflag : (pressAll h initialState ts).hasError = false := by
    cases hf : (pressAll h initialState ts).hasError with
    | false => rfl
    | true => exact absurd (pressAll_error_input h ts hf) hin
  have hev' : evaluateExpression h (pressAll h initialState ts).inputValue = .ok v := by
    rw [hbuf]; exact hev
  refine ⟨⟨v, hev, htext⟩, ?_⟩
  rw [handleButtonClick_eq_ok h _ v "Infinity" hin hev' htext]
  refine ⟨hflag, rfl, ?_⟩
  simp [displayText, jsOr, truthy, hflag]

/-- Witness of C13 at the presses `1`, `/`, `0`. -/
theorem C13_division_by_zero_shows_infinity_witness :
    isPositiveNumeral "1" = true ∧
      (pressAll divisionByZeroHost initialState ["1", "/", "0"]).inputValue = "1" ++ "/0" ∧
      (handleButtonClick divisionByZeroHost
        (pressAll divisionByZeroHost initialState ["1", "/", "0"]) "=").hasError = false ∧
      (handleButtonClick divisionByZeroHost
        (pressAll divisionByZeroHost initialState ["1", "/", "0"]) "=").inputValue
          = "Infinity" ∧
      displayText (handleButtonClick divisionByZeroHost
        (pressAll divisionByZeroHost initialState ["1", "/", "0"]) "=") = "Infinity" :=
  ⟨by decide, by decide,
    (C13_division_by_zero_shows_infinity divisionByZeroHost divisionByZeroHost_divides "1"
      (by decide) ["1", "/", "0"] (by decide)).2⟩

end Calculator
